import Mathlib

/-!
Verification of the request-lifecycle core of `src/flask/app.py`
(the `Flask` application class: error-handler resolution, exception
handling, response normalization, after-request / teardown hook running
and the one-time before-first-request trigger).

Python exception instances are embedded as plain data: a class is a
numeric id, an instance carries its class's method resolution order
(`type(e).__mro__`) as a list of ids, together with the HTTP status code
it carries, if any.  `isinstance(e, C)` is membership of `C`'s id in the
MRO list.  The class ids below stand for the werkzeug exception classes
imported at the top of `app.py`; werkzeug itself is an external
collaborator, only the facts `app.py` relies on (hierarchy and carried
status codes) are represented.
-/

namespace Flask

/-- Class id for Python's `Exception`. -/
def ExceptionCls : Nat := 0
/-- Class id for `werkzeug.exceptions.HTTPException`. -/
def HTTPExceptionCls : Nat := 1
/-- Class id for `werkzeug.routing.RoutingException`. -/
def RoutingExceptionCls : Nat := 2
/-- Class id for `werkzeug.exceptions.InternalServerError`. -/
def InternalServerErrorCls : Nat := 3
/-- Class id for `werkzeug.routing.RequestRedirect` (a `RoutingException`
that is also an `HTTPException` with code 308). -/
def RequestRedirectCls : Nat := 4

/-- An exception instance: the MRO of its concrete class (the class
itself first, then its ancestors, `Exception` last) and the HTTP status
code the instance carries (`e.code`), `none` when it has no code. -/
structure Exc where
  mro : List Nat
  code : Option Nat
deriving DecidableEq, Repr

/-- Python's `isinstance(e, cls)`: the class appears in the MRO. -/
def isInstanceOf (e : Exc) (cls : Nat) : Bool := e.mro.contains cls

/-- An exception object as passed to user error handlers: the exception
data plus the `original_exception` attribute that `handle_exception`
sets on the `InternalServerError` it synthesizes (absent on ordinary
exceptions). -/
structure ErrObj where
  exc : Exc
  originalException : Option Exc
deriving DecidableEq, Repr

/-- `werkzeug.exceptions.InternalServerError()` as constructed by
`handle_exception` (line 1408): carries status code 500. -/
def internalServerErrorExc : Exc :=
  { mro := [InternalServerErrorCls, HTTPExceptionCls, ExceptionCls]
    code := some 500 }

/-- A response status: `rv.status_code = n` stores an integer,
`rv.status = s` stores a status string (the two assignment branches at
lines 1661-1664 of `make_response`). -/
inductive StatusVal where
  | int (n : Nat)
  | str (s : String)
deriving DecidableEq, Repr

/-- The canonical response object (`app.response_class` instance):
body, status and headers.  Werkzeug's `Response` is external; only the
fields `make_response` and the hooks manipulate are represented. -/
structure Resp where
  body : String
  status : StatusVal
  headers : List (String × String)
deriving DecidableEq, Repr

/-- A Python exception raised by the modelled code. -/
inductive PyErr where
  | typeError (msg : String)
  | hookError (msg : String)
  | propagated (e : Exc)
deriving DecidableEq, Repr

/-- A Python value as seen by `make_response`: the closed set of return
shapes its `isinstance` dispatch distinguishes.  `httpExc` is an
`HTTPException` instance (a WSGI callable, hence accepted by the
`force_type` branch); `baseResp` is a response of another
`BaseResponse` class; `other` stands for any unsupported type. -/
inductive PyVal where
  | pynone
  | str (s : String)
  | bytes (s : String)
  | intVal (n : Nat)
  | dict (d : List (String × String))
  | headersObj (hs : List (String × String))
  | listv (hs : List (String × String))
  | resp (r : Resp)
  | baseResp (r : Resp)
  | httpExc (e : ErrObj)
  | tuple (xs : List PyVal)
  | other (name : String)

/-- A user error handler: receives the exception object, returns a view
return value. -/
def Handler : Type := ErrObj → PyVal

/-- An after-request hook: takes the current response and returns a
response, or raises. -/
def AfterHook : Type := Resp → Except PyErr Resp

/-- The configuration values the modelled methods read. -/
structure AppConfig where
  propagateExceptionsCfg : Option Bool
  testing : Bool
  debug : Bool
deriving DecidableEq, Repr

/-- The `Flask.propagate_exceptions` property (lines 500-509): the
`PROPAGATE_EXCEPTIONS` config value if set, otherwise
`self.testing or self.debug`. -/
def propagate_exceptions (c : AppConfig) : Bool :=
  match c.propagateExceptionsCfg with
  | some rv => rv
  | none => c.testing || c.debug

/-- The application state the modelled methods read.  Python dicts keyed
by blueprint name are total functions returning `[]` for an absent key
(`d.get(k, ())` / `k in d` both collapse to this).  The
`error_handler_spec` nesting `scope -> code -> class -> handler` keeps
its innermost dict as an association list so that the source's
`if not handler_map` test is visible.  The session interface is an
external collaborator (`is_null_session` / `save_session`). -/
structure App where
  config : AppConfig
  error_handler_spec : Option String → Option Nat → List (Nat × Handler)
  after_request_funcs : Option String → List AfterHook
  teardown_request_funcs : Option String → List String
  isNullSession : Bool
  saveSession : Resp → Resp

/-- Modelled from the spec: `Flask._get_exc_class_and_code` is called at
line 1238 but its definition is not among the sources.  Per §4.3 of the
spec the lookup keys are the exception's class (with its ancestor
chain, walked nearest first) and "the exception's concrete status code
(if the exception carries one)". -/
def _get_exc_class_and_code (e : Exc) : List Nat × Option Nat :=
  (e.mro, e.code)

/-- The inner loop of `_find_error_handler` (lines 1251-1255): walk the
exception class's MRO, nearest class first, and return the first
handler registered for a class on it. -/
def lookupMro {H : Type} (handler_map : List (Nat × H)) : List Nat → Option H
  | [] => none
  | cls :: rest =>
    match handler_map.lookup cls with
    | some handler => some handler
    | none => lookupMro handler_map rest

/-- The outer loop of `_find_error_handler` (lines 1240-1255): try the
`(scope, code)` buckets in order; an empty bucket (`if not handler_map`)
is skipped, otherwise the MRO walk runs and the first hit is returned,
falling through to the next bucket when nothing on the MRO matched. -/
def searchBuckets {H : Type} (spec : Option String → Option Nat → List (Nat × H))
    (mro : List Nat) : List (Option String × Option Nat) → Option H
  | [] => none
  | (name, c) :: rest =>
    let handler_map := spec name c
    if handler_map.isEmpty then searchBuckets spec mro rest
    else
      match lookupMro handler_map mro with
      | some handler => some handler
      | none => searchBuckets spec mro rest

/-- `Flask._find_error_handler` (lines 1232-1255): resolve a handler for
an exception by trying the buckets `(blueprint, code)`,
`(None, code)`, `(blueprint, None)`, `(None, None)` in order, walking
the MRO inside each. -/
def _find_error_handler {H : Type}
    (spec : Option String → Option Nat → List (Nat × H))
    (blueprint : Option String) (e : Exc) : Option H :=
  let ec := _get_exc_class_and_code e
  searchBuckets spec ec.1
    [(blueprint, ec.2), (none, ec.2), (blueprint, none), (none, none)]

/-- Outcome of `handle_http_exception`: the exception returned unchanged
(it becomes the response directly) or a handler's return value. -/
inductive HttpExcResult where
  | unchangedExc (e : Exc)
  | handled (rv : PyVal)

/-- `Flask.handle_http_exception` (lines 1257-1288): exceptions without
a code and internal `RoutingException`s are returned unchanged without
handler lookup; otherwise the resolved handler (if any) is invoked. -/
def handle_http_exception (app : App) (blueprint : Option String) (e : Exc) :
    HttpExcResult :=
  if e.code = none then .unchangedExc e
  else if isInstanceOf e RoutingExceptionCls then .unchangedExc e
  else
    match _find_error_handler app.error_handler_spec blueprint e with
    | none => .unchangedExc e
    | some handler => .handled (handler { exc := e, originalException := none })

/-- The 2-tuple disambiguation test of `make_response` (line 1609):
`isinstance(rv[1], (Headers, dict, tuple, list))`. -/
def isHeadersShape : PyVal → Bool
  | .headersObj _ => true
  | .dict _ => true
  | .tuple _ => true
  | .listv _ => true
  | _ => false

/-- The header pairs a headers-position value contributes
(`rv.headers.update(headers)` / the `headers=` constructor argument;
werkzeug's `Headers.update` is external, extension semantics kept). -/
def headerPairs : PyVal → List (String × String)
  | .headersObj hs => hs
  | .dict hs => hs
  | .listv hs => hs
  | _ => []

/-- The status assignment of `make_response` (lines 1660-1664):
a `str`/`bytes`/`bytearray` status goes through `rv.status`, anything
else through `rv.status_code` (the setter for a non-integer there
belongs to the external response class and is not modelled further). -/
def applyStatus (r : Resp) (s : PyVal) : Resp :=
  match s with
  | .str v => { r with status := .str v }
  | .bytes v => { r with status := .str v }
  | .intVal n => { r with status := .int n }
  | _ => { r with status := .int 0 }

/-- Apply an optional status value (`if status is not None`). -/
def applyStatusOpt (r : Resp) : Option PyVal → Resp
  | none => r
  | some s => applyStatus r s

/-- Apply optional headers (`if headers: rv.headers.update(headers)`,
line 1667): a falsy/empty headers value leaves the response alone,
otherwise the pairs extend the existing headers. -/
def applyHeadersOpt (r : Resp) : Option PyVal → Resp
  | none => r
  | some h =>
    let ps := headerPairs h
    if ps.isEmpty then r else { r with headers := r.headers ++ ps }

/-- The default headers a fresh `response_class` instance carries
(werkzeug external: default content type). -/
def defaultHeaders : List (String × String) :=
  [("Content-Type", "text/html; charset=utf-8")]

/-- `self.response_class(rv, status=status, headers=headers)` (line
1635): a fresh response with default status 200 whose constructor
consumes the status and headers arguments. -/
def response_class_new (body : String) (status headers : Option PyVal) : Resp :=
  let r : Resp := { body := body, status := .int 200, headers := defaultHeaders }
  applyHeadersOpt (applyStatusOpt r status) headers

/-- Render one JSON string member. -/
def jsonMember (kv : String × String) : String :=
  "\"" ++ kv.1 ++ "\": \"" ++ kv.2 ++ "\""

/-- Render a flat string-to-string mapping as a JSON object body. -/
def jsonRender (d : List (String × String)) : String :=
  "\x7b" ++ String.intercalate ", " (d.map jsonMember) ++ "\x7d"

/-- Modelled from the spec: `jsonify` lives in the json module, which is
not among the sources; per §4.4 a structured mapping is "serialized to
a JSON body with content type `application/json`, default status
200". -/
def jsonify (d : List (String × String)) : Resp :=
  { body := jsonRender d, status := .int 200
    headers := [("Content-Type", "application/json")] }

/-- `response_class.force_type` on an `HTTPException` instance (the
WSGI-callable branch of `make_response`, lines 1639-1650): werkzeug
renders the exception as a response carrying the exception's status
code (external collaborator, only the status is relied upon). -/
def httpExcResponse (e : ErrObj) : Resp :=
  { body := "", status := .int (e.exc.code.getD 0), headers := defaultHeaders }

/-- Error message of `make_response` for a `None` body (lines
1622-1627). -/
def noneBodyMsg : String :=
  "The view function did not return a valid response. The function" ++
  " either returned None or ended without a return statement."

/-- Error message of `make_response` for a badly sized tuple (lines
1614-1619). -/
def badTupleMsg : String :=
  "The view function did not return a valid response tuple. The tuple" ++
  " must have the form (body, status, headers), (body, status), or" ++
  " (body, headers)."

/-- Error message of `make_response` for an unsupported body type
(lines 1651-1657). -/
def badTypeMsg : String :=
  "The view function did not return a valid response. The return type" ++
  " must be a string, dict, tuple, Response instance, or WSGI callable."

/-- The body of `make_response` after tuple unpacking (lines 1621-1670):
reject a `None` body, convert the body to a `response_class` instance
per its type, then apply the remaining status and headers.  The
`str`/`bytes` branch hands status and headers to the constructor and
clears them (line 1636), so the trailing application is skipped for
it. -/
def make_response_parts (body : PyVal) (status headers : Option PyVal) :
    Except PyErr Resp :=
  match body with
  | .pynone => .error (.typeError noneBodyMsg)
  | .resp r => .ok (applyHeadersOpt (applyStatusOpt r status) headers)
  | .str s => .ok (response_class_new s status headers)
  | .bytes s => .ok (response_class_new s status headers)
  | .dict d => .ok (applyHeadersOpt (applyStatusOpt (jsonify d) status) headers)
  | .baseResp r => .ok (applyHeadersOpt (applyStatusOpt r status) headers)
  | .httpExc e => .ok (applyHeadersOpt (applyStatusOpt (httpExcResponse e) status) headers)
  | _ => .error (.typeError badTypeMsg)

/-- `Flask.make_response` (lines 1555-1670): unpack a tuple return into
body, status and headers — a 3-tuple directly, a 2-tuple by the shape
of its second element (headers-like means headers, anything else means
status), any other tuple length is an error — then normalize via
`make_response_parts`. -/
def make_response (rv : PyVal) : Except PyErr Resp :=
  match rv with
  | .tuple [a, b, c] => make_response_parts a (some b) (some c)
  | .tuple [a, b] =>
    if isHeadersShape b then make_response_parts a none (some b)
    else make_response_parts a (some b) none
  | .tuple _ => .error (.typeError badTupleMsg)
  | v => make_response_parts v none none

/-- Run a chain of after-request hooks left to right, threading the
response; a raising hook aborts the chain (the `for handler in funcs`
loop at lines 1792-1793). -/
def runHooks : List AfterHook → Resp → Except PyErr Resp
  | [], r => .ok r
  | f :: fs, r =>
    match f r with
    | .error e => .error e
    | .ok r2 => runHooks fs r2

/-- `Flask.process_response` (lines 1772-1796): run the hooks recorded
on the request context for this one request (in the order the iterable
holds them), then the blueprint's after-request hooks reversed, then
the global after-request hooks reversed, each hook's return value
becoming the response; finally the session is saved unless it is a null
session.  The context's `_after_request_functions` list is passed in
explicitly (`after_this_request` appends to it; the context module is
an external source file). -/
def process_response (app : App) (ctxAfterRequestFunctions : List AfterHook)
    (blueprint : Option String) (response : Resp) : Except PyErr Resp :=
  let funcs := ctxAfterRequestFunctions
  let funcs := funcs ++ (match blueprint with
    | some bp => (app.after_request_funcs (some bp)).reverse
    | none => [])
  let funcs := funcs ++ (app.after_request_funcs none).reverse
  match runHooks funcs response with
  | .error e => .error e
  | .ok r => .ok (if app.isNullSession then r else app.saveSession r)

/-- `Flask.finalize_request` (lines 1491-1514): normalize the view
return value with `make_response` — outside any protection — then run
`process_response` inside a try block; a failure there propagates on a
normal pass but is logged and swallowed on an error-recovery pass
(`from_error_handler=True`), the already-normalized response being
returned instead. -/
def finalize_request (app : App) (ctxAfterRequestFunctions : List AfterHook)
    (blueprint : Option String) (rv : PyVal) (from_error_handler : Bool) :
    Except PyErr Resp :=
  match make_response rv with
  | .error t => .error t
  | .ok response =>
    match process_response app ctxAfterRequestFunctions blueprint response with
    | .ok r => .ok r
    | .error e => if from_error_handler then .ok response else .error e

/-- `Flask.handle_exception` (lines 1362-1417): re-raise when
`propagate_exceptions` holds; otherwise log the original exception,
synthesize an `InternalServerError` carrying it as
`original_exception`, offer that object to a registered 500 handler,
and finalize the outcome with `from_error_handler=True`. -/
def handle_exception (app : App) (ctxAfterRequestFunctions : List AfterHook)
    (blueprint : Option String) (e : Exc) : Except PyErr Resp :=
  if propagate_exceptions app.config then .error (.propagated e)
  else
    let server_error : ErrObj :=
      { exc := internalServerErrorExc, originalException := some e }
    let rv : PyVal :=
      match _find_error_handler app.error_handler_spec blueprint server_error.exc with
      | some handler => handler server_error
      | none => .httpExc server_error
    finalize_request app ctxAfterRequestFunctions blueprint rv true

/-- Outcome of one `wsgi_app` call: the response or the propagated
exception, plus whether the cleanup block ran. -/
structure WsgiOutcome where
  result : Except PyErr Resp
  teardownRan : Bool

/-- `Flask.wsgi_app` (lines 1943-1984), parametrized by the outcome of
`full_dispatch_request` (a response, or the exception it raised which
is then routed through `handle_exception`).  The `finally` block calls
`ctx.auto_pop(error)` on every path; the context module is not among
the sources, so per the spec (§4.5 steps 11-12, §5) the pop — and with
it the teardown hooks — runs unconditionally in the cleanup block,
recorded here as `teardownRan`. -/
def wsgi_app (app : App) (ctxAfterRequestFunctions : List AfterHook)
    (blueprint : Option String) (dispatch : Except Exc Resp) : WsgiOutcome :=
  match dispatch with
  | .ok response => { result := .ok response, teardownRan := true }
  | .error e =>
    { result := handle_exception app ctxAfterRequestFunctions blueprint e
      teardownRan := true }

/-- An observable event of `do_teardown_request`: a teardown hook called
with the unhandled exception (or `none`), or the
`request_tearing_down` signal being sent. -/
inductive TeardownEvent where
  | call (hook : String) (exc : Option Exc)
  | signal (exc : Option Exc)
deriving DecidableEq, Repr

/-- `Flask.do_teardown_request` (lines 1798-1827): run the global
teardown-request hooks reversed, then the blueprint's teardown-request
hooks reversed, passing each the unhandled exception, then send the
`request_tearing_down` signal.  Teardown hooks' return values are
ignored (their doc, line 1216), so hooks are identified by name and
the call order is the observable trace. -/
def do_teardown_request (app : App) (blueprint : Option String)
    (exc : Option Exc) : List TeardownEvent :=
  let funcs := (app.teardown_request_funcs none).reverse
  let funcs := funcs ++ (match blueprint with
    | some bp => (app.teardown_request_funcs (some bp)).reverse
    | none => [])
  funcs.map (fun f => TeardownEvent.call f exc) ++ [TeardownEvent.signal exc]

/-- `Flask.try_trigger_before_first_request_functions` (lines
1516-1530): return early when `_got_first_request` is set; otherwise
take the lock, re-check the flag, run the registered hooks in
registration order and set the flag.  The lock provides mutual
exclusion only (spec §5); in this sequential model the guarded section
re-reads the same flag.  Result: the hooks run (by name, in order) and
the new flag value. -/
def try_trigger_before_first_request_functions
    (before_first_request_funcs : List String) (got_first_request : Bool) :
    List String × Bool :=
  if got_first_request then ([], got_first_request)
  else
    if got_first_request then ([], got_first_request)
    else (before_first_request_funcs, true)

/-! ## Helper lemmas -/

theorem lookupMro_nil {H : Type} (mro : List Nat) :
    lookupMro ([] : List (Nat × H)) mro = none := by
  induction mro with
  | nil => rfl
  | cons c rest ih => simpa [lookupMro] using ih

theorem orElse_thunk_none {α : Type} (o : Option α) :
    (o.orElse fun _ => none) = o := by
  cases o <;> rfl

theorem searchBuckets_cons {H : Type}
    (spec : Option String → Option Nat → List (Nat × H)) (mro : List Nat)
    (name : Option String) (c : Option Nat)
    (rest : List (Option String × Option Nat)) :
    searchBuckets spec mro ((name, c) :: rest)
      = (lookupMro (spec name c) mro).orElse
          (fun _ => searchBuckets spec mro rest) := by
  by_cases h : (spec name c).isEmpty
  · have hnil : spec name c = [] := by
      cases hsp : spec name c with
      | nil => rfl
      | cons a l => rw [hsp] at h; simp [List.isEmpty] at h
    simp [searchBuckets, h, hnil, lookupMro_nil, Option.orElse]
  · cases hl : lookupMro (spec name c) mro <;>
      simp [searchBuckets, h, hl, Option.orElse]

/-! ## Concrete fixtures used by witnesses and counterexamples -/

/-- An application with nothing registered, propagation off, and a null
session. -/
def app0 : App :=
  { config := { propagateExceptionsCfg := some false, testing := false, debug := false }
    error_handler_spec := fun _ _ => []
    after_request_funcs := fun _ => []
    teardown_request_funcs := fun _ => []
    isNullSession := true
    saveSession := id }

/-- A `werkzeug.routing.RequestRedirect` instance: a `RoutingException`
that is also an `HTTPException`, carrying code 308. -/
def requestRedirectExc : Exc :=
  { mro := [RequestRedirectCls, RoutingExceptionCls, HTTPExceptionCls, ExceptionCls]
    code := some 308 }

/-- A user exception class `E` (id 10) carrying status code 418, with
handlers (identified by numbers) registered for `E` at both blueprint
and global class buckets. -/
def c1spec : Option String → Option Nat → List (Nat × Nat) := fun name c =>
  match name, c with
  | some "bp", none => [(10, 7)]
  | none, none => [(10, 9)]
  | _, _ => []

/-- An instance of class `E` (id 10). -/
def c1exc : Exc := { mro := [10, HTTPExceptionCls, ExceptionCls], code := some 418 }

/-! ## Claims -/

/-- C1: For every exception reaching error-handler lookup,
`_find_error_handler` picks the first match in the fixed order:
blueprint bucket for the exception's status code, global bucket for
that code, blueprint bucket for the exception's class walking ancestors
nearest first, global bucket for the class — so with a class handler
registered at both global and matched-scope level (and no code-bucket
match) the scope-specific handler is chosen, and when every bucket
misses the lookup yields `none`. -/
theorem find_error_handler_precedence {H : Type}
    (spec : Option String → Option Nat → List (Nat × H))
    (bp : Option String) (e : Exc) :
    (_find_error_handler spec bp e
      = ((lookupMro (spec bp e.code) e.mro).orElse fun _ =>
         ((lookupMro (spec none e.code) e.mro).orElse fun _ =>
          ((lookupMro (spec bp none) e.mro).orElse fun _ =>
           lookupMro (spec none none) e.mro))))
    ∧ (∀ h : H, lookupMro (spec bp e.code) e.mro = none →
        lookupMro (spec none e.code) e.mro = none →
        lookupMro (spec bp none) e.mro = some h →
        _find_error_handler spec bp e = some h)
    ∧ (lookupMro (spec bp e.code) e.mro = none →
       lookupMro (spec none e.code) e.mro = none →
       lookupMro (spec bp none) e.mro = none →
       lookupMro (spec none none) e.mro = none →
       _find_error_handler spec bp e = none) := by
  have hmain : _find_error_handler spec bp e
      = ((lookupMro (spec bp e.code) e.mro).orElse fun _ =>
         ((lookupMro (spec none e.code) e.mro).orElse fun _ =>
          ((lookupMro (spec bp none) e.mro).orElse fun _ =>
           lookupMro (spec none none) e.mro))) := by
    unfold _find_error_handler _get_exc_class_and_code
    rw [searchBuckets_cons, searchBuckets_cons, searchBuckets_cons,
      searchBuckets_cons]
    simp only [searchBuckets, orElse_thunk_none]
  refine ⟨hmain, ?_, ?_⟩
  · intro h h1 h2 h3
    rw [hmain, h1, h2, h3]
    rfl
  · intro h1 h2 h3 h4
    rw [hmain, h1, h2, h3, h4]
    rfl

/-- Witness for C1: with a handler for class `E` in the blueprint class
bucket (handler 7) and another in the global class bucket (handler 9),
and empty code buckets, the lookup returns the blueprint handler. -/
theorem find_error_handler_precedence_witness :
    _find_error_handler c1spec (some "bp") c1exc = some 7 :=
  (find_error_handler_precedence c1spec (some "bp") c1exc).2.1 7 rfl rfl rfl

/-- C5: An internal `RoutingException` is returned unchanged by
`handle_http_exception` — for every application (hence regardless of
which error handlers are registered) and every blueprint, no handler is
consulted and the exception itself becomes the result. -/
theorem handle_http_exception_routing_unchanged (app : App)
    (bp : Option String) (e : Exc)
    (h : isInstanceOf e RoutingExceptionCls = true) :
    handle_http_exception app bp e = .unchangedExc e := by
  unfold handle_http_exception
  by_cases hc : e.code = none
  · simp [hc]
  · simp [hc, h]

/-- Witness for C5: the router's slash-redirect exception
(`RequestRedirect`, code 308) is returned unchanged. -/
theorem handle_http_exception_routing_unchanged_witness :
    isInstanceOf requestRedirectExc RoutingExceptionCls = true
      ∧ handle_http_exception app0 none requestRedirectExc
          = .unchangedExc requestRedirectExc :=
  ⟨by decide,
   handle_http_exception_routing_unchanged app0 none requestRedirectExc
     (by decide)⟩

/-- A marker after-request hook: appends its label to the response body,
making the execution order observable on the response. -/
def appendHook (s : String) : AfterHook :=
  fun r => .ok { r with body := r.body ++ s }

/-- Concatenation of a list of labels. -/
def strConcat : List String → String
  | [] => ""
  | a :: rest => a ++ strConcat rest

theorem runHooks_appendHook (ls : List String) (r : Resp) :
    runHooks (ls.map appendHook) r
      = .ok { r with body := r.body ++ strConcat ls } := by
  induction ls generalizing r with
  | nil => simp [runHooks, strConcat]
  | cons a rest ih =>
    simp [runHooks, appendHook, strConcat, ih, String.append_assoc]

/-- An application whose after-request hooks are marker hooks built from
label lists: `bpLabels` registered on blueprint "bp", `globLabels`
registered globally (each list in registration order). -/
def labelApp (bpLabels globLabels : List String) : App :=
  { config := { propagateExceptionsCfg := some false, testing := false, debug := false }
    error_handler_spec := fun _ _ => []
    after_request_funcs := fun o =>
      match o with
      | none => globLabels.map appendHook
      | some bp => if bp = "bp" then bpLabels.map appendHook else []
    teardown_request_funcs := fun _ => []
    isNullSession := true
    saveSession := id }

/-- An application with teardown-request hooks given by name:
`gs` registered globally, `bs` registered on blueprint "bp" (each list
in registration order). -/
def tdApp (gs bs : List String) : App :=
  { config := { propagateExceptionsCfg := some false, testing := false, debug := false }
    error_handler_spec := fun _ _ => []
    after_request_funcs := fun _ => []
    teardown_request_funcs := fun o =>
      match o with
      | none => gs
      | some bp => if bp = "bp" then bs else []
    isNullSession := true
    saveSession := id }

/-- An empty response to run marker hooks against. -/
def r0 : Resp := { body := "", status := .int 200, headers := [] }

/-- Counterexample to C3: two hooks registered for the duration of one
request in the order [h1, h2] execute as [h1, h2] — the request-scoped
group is *not* run in reverse registration order, contradicting the
claim's prediction ("h2h1"). -/
theorem process_response_request_scope_not_reversed :
    process_response (labelApp [] []) [appendHook "h1", appendHook "h2"] none r0
      = .ok { r0 with body := "h1h2" }
    ∧ ("h1h2" : String) ≠ "h2h1" :=
  ⟨rfl, by decide⟩

/-- C3 (amended): after-request hooks run in three groups — hooks
registered for the duration of this one request first, in registration
order; then the matched blueprint's app-level hooks in reverse
registration order; then the global app-level hooks in reverse
registration order — each hook's return value becoming the response
passed onward. -/
theorem process_response_order (cs bs gs : List String) (r : Resp) :
    process_response (labelApp bs gs) (cs.map appendHook) (some "bp") r
      = .ok { r with body := r.body ++ strConcat (cs ++ bs.reverse ++ gs.reverse) } := by
  have hmap : cs.map appendHook ++ (bs.map appendHook).reverse
        ++ (gs.map appendHook).reverse
      = (cs ++ bs.reverse ++ gs.reverse).map appendHook := by
    simp [List.map_append]
  simp only [process_response, labelApp, reduceIte, hmap, runHooks_appendHook]

/-- Counterexample to C4: with teardown hook "g" registered globally and
"t" registered on the matched blueprint, the global hook runs first —
the scope-specific hook does *not* run before the global one, as the
claim predicts. -/
theorem do_teardown_request_global_first :
    do_teardown_request (tdApp ["g"] ["t"]) (some "bp") none
      = [TeardownEvent.call "g" none, TeardownEvent.call "t" none,
         TeardownEvent.signal none]
    ∧ [TeardownEvent.call "g" none, TeardownEvent.call "t" none,
         TeardownEvent.signal none]
      ≠ [TeardownEvent.call "t" none, TeardownEvent.call "g" none,
         TeardownEvent.signal none] :=
  ⟨rfl, by decide⟩

/-- C4 (amended): at context pop, teardown-request hooks run in
reverse-of-registration order within each scope, with the *global*
hooks running before the matched blueprint's hooks; each hook receives
the unhandled exception (or `none`) as its argument, and all hook calls
precede the request-tearing-down notification. -/
theorem do_teardown_request_order (gs bs : List String) (exc : Option Exc) :
    do_teardown_request (tdApp gs bs) (some "bp") exc
      = (gs.reverse ++ bs.reverse).map (fun f => TeardownEvent.call f exc)
        ++ [TeardownEvent.signal exc]
    ∧ do_teardown_request (tdApp gs bs) none exc
      = gs.reverse.map (fun f => TeardownEvent.call f exc)
        ++ [TeardownEvent.signal exc] := by
  constructor <;> simp [do_teardown_request, tdApp]

/-- An after-request hook that raises. -/
def boomHook : AfterHook := fun _ => .error (.hookError "boom")

/-- An application with one raising global after-request hook. -/
def c6app : App :=
  { config := { propagateExceptionsCfg := some false, testing := false, debug := false }
    error_handler_spec := fun _ _ => []
    after_request_funcs := fun o =>
      match o with
      | none => [boomHook]
      | some _ => []
    teardown_request_funcs := fun _ => []
    isNullSession := true
    saveSession := id }

/-- The response `make_response` produces for the body "ok". -/
def c6resp : Resp := { body := "ok", status := .int 200, headers := defaultHeaders }

/-- C6: if running the after-request hooks raises during finalization,
the exception propagates on a normal pass, but on an error-recovery
pass (`from_error_handler` set) it is suppressed and the
already-normalized response is returned instead. -/
theorem finalize_request_error_recovery (app : App)
    (ctxF : List AfterHook) (bp : Option String) (rv : PyVal) (resp : Resp)
    (err : PyErr)
    (hmk : make_response rv = .ok resp)
    (hpr : process_response app ctxF bp resp = .error err) :
    finalize_request app ctxF bp rv false = .error err
    ∧ finalize_request app ctxF bp rv true = .ok resp := by
  constructor <;> simp [finalize_request, hmk, hpr]

/-- Witness for C6: a view return "ok" normalizes fine, a raising global
after-request hook makes post-processing fail; the failure propagates
on a normal pass and is suppressed on an error-recovery pass with the
normalized response returned. -/
theorem finalize_request_error_recovery_witness :
    make_response (.str "ok") = .ok c6resp
    ∧ process_response c6app [] none c6resp = .error (.hookError "boom")
    ∧ finalize_request c6app [] none (.str "ok") false
        = .error (.hookError "boom")
    ∧ finalize_request c6app [] none (.str "ok") true = .ok c6resp :=
  ⟨rfl, rfl,
   (finalize_request_error_recovery c6app [] none (.str "ok") c6resp
     (.hookError "boom") rfl rfl).1,
   (finalize_request_error_recovery c6app [] none (.str "ok") c6resp
     (.hookError "boom") rfl rfl).2⟩

/-- C7: a 2-tuple return value is disambiguated by the second element's
shape — a `Headers`/dict/tuple/list second element is treated as
headers (merged into the response's existing headers), anything else as
the status; in particular ("created", 201) yields status 201 with body
"created", and a dict second element extends the headers of a response
body. -/
theorem make_response_pair_disambiguation (b x : PyVal) (r : Resp)
    (p : String × String) :
    (isHeadersShape x = true →
      make_response (.tuple [b, x]) = make_response_parts b none (some x))
    ∧ (isHeadersShape x = false →
      make_response (.tuple [b, x]) = make_response_parts b (some x) none)
    ∧ make_response (.tuple [.str "created", .intVal 201])
        = .ok { body := "created", status := .int 201, headers := defaultHeaders }
    ∧ make_response (.tuple [.resp r, .dict [p]])
        = .ok { r with headers := r.headers ++ [p] } := by
  refine ⟨fun h => by simp [make_response, h], fun h => by simp [make_response, h],
    rfl, rfl⟩

/-- Witness for C7: a dict second element is headers-shaped and routes
to the headers position; an integer second element is not and routes to
the status position. -/
theorem make_response_pair_disambiguation_witness :
    isHeadersShape (.dict [("a", "b")]) = true
    ∧ make_response (.tuple [.str "hi", .dict [("a", "b")]])
        = make_response_parts (.str "hi") none (some (.dict [("a", "b")]))
    ∧ isHeadersShape (.intVal 201) = false
    ∧ make_response (.tuple [.str "hi", .intVal 201])
        = make_response_parts (.str "hi") (some (.intVal 201)) none :=
  ⟨rfl,
   (make_response_pair_disambiguation (.str "hi") (.dict [("a", "b")]) r0
     ("a", "b")).1 rfl,
   rfl,
   (make_response_pair_disambiguation (.str "hi") (.intVal 201) r0
     ("a", "b")).2.1 rfl⟩

/-- C8: an absent body always fails normalization with a
TypeError-kind error and is never coerced into a response: a bare
`None`, and every 2- or 3-tuple whose body element is `None`, make
`make_response` raise. -/
theorem make_response_none_always_error :
    make_response .pynone = .error (.typeError noneBodyMsg)
    ∧ (∀ x : PyVal, make_response (.tuple [.pynone, x])
        = .error (.typeError noneBodyMsg))
    ∧ (∀ x y : PyVal, make_response (.tuple [.pynone, x, y])
        = .error (.typeError noneBodyMsg)) := by
  refine ⟨rfl, ?_, ?_⟩
  · intro x
    by_cases h : isHeadersShape x <;>
      simp [make_response, h, make_response_parts]
  · intro x y
    rfl

/-- C9: before-first-request hooks run at most once per application
instance — on a dispatch with the flag clear they run in registration
order and the flag is set; with the flag set the dispatch returns
without running them; and after any dispatch, every subsequent dispatch
runs none of them. -/
theorem before_first_request_once (funcs : List String) (st : Bool) :
    try_trigger_before_first_request_functions funcs false = (funcs, true)
    ∧ try_trigger_before_first_request_functions funcs true = ([], true)
    ∧ try_trigger_before_first_request_functions funcs
        (try_trigger_before_first_request_functions funcs st).2 = ([], true) := by
  refine ⟨rfl, rfl, ?_⟩
  cases st <;> rfl

/-- C2: when an exception is left unhandled and propagate/debug mode is
off, `handle_exception` synthesizes a 500 `InternalServerError`
carrying the original exception as `original_exception`; if no handler
is registered for 500/`InternalServerError` either, the dispatch
returns the finalized 500-shaped response without raising, with the
cleanup block (teardown) still running; if a 500 handler is registered,
that handler is offered the back-referencing 500 object and its return
value is finalized. -/
theorem handle_exception_unhandled_500 (app : App) (bp : Option String)
    (e : Exc)
    (hprop : propagate_exceptions app.config = false)
    (hafter : app.after_request_funcs = fun _ => [])
    (hsess : app.isNullSession = true) :
    (_find_error_handler app.error_handler_spec bp internalServerErrorExc
        = none →
      wsgi_app app [] bp (.error e)
        = { result := .ok (httpExcResponse
              { exc := internalServerErrorExc, originalException := some e })
            teardownRan := true }
      ∧ (httpExcResponse
          { exc := internalServerErrorExc, originalException := some e }).status
          = .int 500)
    ∧ (∀ handler : Handler,
        _find_error_handler app.error_handler_spec bp internalServerErrorExc
          = some handler →
        handle_exception app [] bp e
          = finalize_request app [] bp
              (handler
                { exc := internalServerErrorExc
                  originalException := some e }) true) := by
  constructor
  · intro hnone
    have hpr : process_response app [] bp
        (httpExcResponse
          { exc := internalServerErrorExc, originalException := some e })
        = .ok (httpExcResponse
            { exc := internalServerErrorExc, originalException := some e }) := by
      unfold process_response
      rw [hafter]
      cases bp <;> simp [runHooks, hsess]
    refine ⟨?_, rfl⟩
    simp [wsgi_app, handle_exception, hprop, hnone, finalize_request,
      make_response, make_response_parts, applyStatusOpt, applyHeadersOpt, hpr]
  · intro handler hsome
    simp [handle_exception, hprop, hsome]

/-- Witness for C2: with no handler registered at all and propagation
off, a dispatch that raised returns a 500 response and the cleanup
block ran. -/
theorem handle_exception_unhandled_500_witness :
    propagate_exceptions app0.config = false
    ∧ _find_error_handler app0.error_handler_spec none internalServerErrorExc
        = none
    ∧ wsgi_app app0 [] none (.error c1exc)
        = { result := .ok (httpExcResponse
              { exc := internalServerErrorExc, originalException := some c1exc })
            teardownRan := true }
    ∧ (httpExcResponse
        { exc := internalServerErrorExc,
          originalException := some c1exc }).status = .int 500 :=
  ⟨rfl, rfl,
   ((handle_exception_unhandled_500 app0 none c1exc rfl rfl rfl).1 rfl).1,
   ((handle_exception_unhandled_500 app0 none c1exc rfl rfl rfl).1 rfl).2⟩

/-- A 500 handler whose return value does not normalize (it returns
`None`). -/
def badHandler : Handler := fun _ => .pynone

/-- An application with `badHandler` registered globally for status
code 500 / `InternalServerError`. -/
def c10app : App :=
  { config := { propagateExceptionsCfg := some false, testing := false, debug := false }
    error_handler_spec := fun name c =>
      match name, c with
      | none, some 500 => [(InternalServerErrorCls, badHandler)]
      | _, _ => []
    after_request_funcs := fun _ => []
    teardown_request_funcs := fun _ => []
    isNullSession := true
    saveSession := id }

/-- C10: the error-recovery suppression covers only response
post-processing, not normalization — a `make_response` failure
propagates out of `finalize_request` even on an error-recovery pass,
and when a registered 500 handler returns a non-normalizable value the
TypeError propagates out of `handle_exception` and out of the dispatch
even with propagate mode off. -/
theorem make_response_error_propagates (app : App)
    (ctxF : List AfterHook) (bp : Option String) (e : Exc) (t : PyErr)
    (hprop : propagate_exceptions app.config = false) :
    (∀ rv : PyVal, make_response rv = .error t →
      finalize_request app ctxF bp rv true = .error t)
    ∧ (∀ handler : Handler,
        _find_error_handler app.error_handler_spec bp internalServerErrorExc
          = some handler →
        make_response (handler
          { exc := internalServerErrorExc
            originalException := some e }) = .error t →
        handle_exception app ctxF bp e = .error t
        ∧ wsgi_app app ctxF bp (.error e)
            = { result := .error t, teardownRan := true }) := by
  constructor
  · intro rv hmk
    simp [finalize_request, hmk]
  · intro handler hsome hmk
    have h1 : handle_exception app ctxF bp e = .error t := by
      simp [handle_exception, hprop, hsome, finalize_request, hmk]
    exact ⟨h1, by simp [wsgi_app, h1]⟩

/-- Witness for C10: with a 500 handler returning `None` and propagate
mode off, the dispatch ends with the normalization TypeError rather
than a response (the cleanup block still runs). -/
theorem make_response_error_propagates_witness :
    propagate_exceptions c10app.config = false
    ∧ finalize_request c10app [] none .pynone true
        = .error (.typeError noneBodyMsg)
    ∧ handle_exception c10app [] none c1exc
        = .error (.typeError noneBodyMsg)
    ∧ wsgi_app c10app [] none (.error c1exc)
        = { result := .error (.typeError noneBodyMsg), teardownRan := true } :=
  ⟨rfl,
   (make_response_error_propagates c10app [] none c1exc
     (.typeError noneBodyMsg) rfl).1 .pynone rfl,
   ((make_response_error_propagates c10app [] none c1exc
     (.typeError noneBodyMsg) rfl).2 badHandler rfl rfl).1,
   ((make_response_error_propagates c10app [] none c1exc
     (.typeError noneBodyMsg) rfl).2 badHandler rfl rfl).2⟩

end Flask
